import Mathlib

/-!
Verification of the bluetooth-bitrate-manager repository.

The repository ships two Python files, `gui.py` and `monitor.py`, both of
which import a module `bitrate_utils` providing the SBC configuration type
and the SBC bitrate calculator.  That module is not part of the source
tree available here, so its definitions are modelled from the
specification (spec.md §3 and §4.2); every such definition carries a
doc comment starting with `Modelled from the spec:`.  Everything taken
from `gui.py` or `monitor.py` is embedded directly from the code.
-/

/-- Modelled from the spec: the SBC channel-mode enumeration
{mono, dual_channel, stereo, joint_stereo} (spec.md §3). -/
inductive ChannelMode
  | mono
  | dual_channel
  | stereo
  | joint_stereo
deriving DecidableEq

/-- Modelled from the spec: the `SbcConfiguration` value type of spec.md §3.
`effective_bitpool` is optional: absent means the negotiated bitpool could
not be resolved. -/
structure SbcConfiguration where
  sample_rate : Nat
  channel_mode : ChannelMode
  block_length : Nat
  subbands : Nat
  min_bitpool : Nat
  max_bitpool : Nat
  effective_bitpool : Option Nat
deriving DecidableEq

/-- Structural validity of an `SbcConfiguration` per the constraint column of
the spec.md §3 data-model table. -/
def valid_sbc (c : SbcConfiguration) : Bool :=
  (c.sample_rate == 16000 || c.sample_rate == 32000 ||
   c.sample_rate == 44100 || c.sample_rate == 48000) &&
  (c.block_length == 4 || c.block_length == 8 ||
   c.block_length == 12 || c.block_length == 16) &&
  (c.subbands == 4 || c.subbands == 8) &&
  (decide (2 ≤ c.min_bitpool) && decide (c.min_bitpool ≤ c.max_bitpool) &&
   decide (c.max_bitpool ≤ 250)) &&
  (match c.effective_bitpool with
   | none => true
   | some bp => decide (c.min_bitpool ≤ bp) && decide (bp ≤ c.max_bitpool))

/-- Modelled from the spec: step 1 of the calculator algorithm (spec.md §4.2),
`channels = 1` for mono, else `2`. -/
def channels (cm : ChannelMode) : Nat :=
  match cm with
  | ChannelMode.mono => 1
  | _ => 2

/-- Modelled from the spec: step 2 of the calculator algorithm (spec.md §4.2).
`frame_length = header + payload` in bytes, where
`header = 4 + (4 * subbands * channels) / 8` with integer division, and the
payload ceiling divisions are realised as `(n + 7) / 8` in natural-number
arithmetic. -/
def frame_length (bitpool : Nat) (cm : ChannelMode) (block_length subbands : Nat) : Nat :=
  4 + 4 * subbands * channels cm / 8 +
  (match cm with
   | ChannelMode.mono | ChannelMode.dual_channel =>
       (block_length * channels cm * bitpool + 7) / 8
   | ChannelMode.stereo => (block_length * bitpool + 7) / 8
   | ChannelMode.joint_stereo => (subbands + block_length * bitpool + 7) / 8)

/-- Modelled from the spec: steps 3-4 of the calculator algorithm
(spec.md §4.2).  The real-valued `frame_length * frame_rate * 8` with
`frame_rate = sample_rate / (block_length * subbands)` rounded to the
nearest integer, ties away from zero, is computed exactly in natural-number
arithmetic as `(2 * N + D) / (2 * D)` with `N = frame_length * sample_rate * 8`
and `D = block_length * subbands`. -/
def sbc_bitrate_bps (bitpool sample_rate : Nat) (cm : ChannelMode)
    (block_length subbands : Nat) : Nat :=
  (2 * (frame_length bitpool cm block_length subbands * sample_rate * 8) +
      block_length * subbands) /
    (2 * (block_length * subbands))

/-- Modelled from the spec: `bitrate_utils.calculate_sbc_bitrate`, the
parameter-level entry point used by `gui.py`.  The spec contract
(spec.md §4.2) returns `None` only for an absent effective bitpool; since
this entry point receives the bitpool explicitly it always yields a value. -/
def calculate_sbc_bitrate (bitpool sample_rate : Nat) (channel_mode : ChannelMode)
    (block_length subbands : Nat) : Option Nat :=
  some (sbc_bitrate_bps bitpool sample_rate channel_mode block_length subbands)

/-- Modelled from the spec: `bitrate_utils.sbc_bitrate_from_config`, the
config-level calculator used by `monitor.py` and `gui.py`.  Per the contract
of spec.md §4.2 it returns `None` exactly when `effective_bitpool` is absent. -/
def sbc_bitrate_from_config (c : SbcConfiguration) : Option Nat :=
  match c.effective_bitpool with
  | none => none
  | some bp =>
      calculate_sbc_bitrate bp c.sample_rate c.channel_mode c.block_length c.subbands

/-- Modelled from the spec: `bitrate_utils.format_bitrate`, the trivial
unit-scaling helper (spec.md §4.2 closing paragraph); bits per second are
scaled to kbps (rounded to the nearest kbps) below 1 Mbps, and to Mbps with
one decimal above. -/
def format_bitrate (bps : Nat) : String :=
  if bps < 1000000 then
    let kb := (bps + 500) / 1000
    toString kb ++ " kbps"
  else
    let mb := bps / 1000000
    let tenth := bps / 100000 % 10
    toString mb ++ "." ++ toString tenth ++ " Mbps"

/-- From `gui.py`, `BluetoothBitrateWindow.calculate_sbc_bitrate`
(lines 686-695): fixes `channel_mode='dual_channel'`, `block_length=16`,
`subbands=8`, and maps a `None` result from the underlying calculator to the
integer `0`. -/
def window_calculate_sbc_bitrate (bitpool sample_rate : Nat) : Nat :=
  match calculate_sbc_bitrate bitpool sample_rate ChannelMode.dual_channel 16 8 with
  | some b => b
  | none => 0

/-- From `monitor.py` lines 125 and 137: the static SBC fallback estimate
used when the bitpool cannot be resolved. -/
def sbc_fallback (is_xq : Bool) : String :=
  if is_xq then ("~552 kbps") else ("~328 kbps")

/-- From `monitor.py` lines 117-137: the bitrate string shown for an SBC
device.  `config` is the result of `fetch_sbc_configuration` (absent when
the resolver returned `None`).  The Python guard is
`if bitrate and bitpool is not None`, so a `None` or zero bitrate and an
absent bitpool all fall back to the static estimate. -/
def pactl_sbc_bitrate_field (is_xq : Bool) (config : Option SbcConfiguration) : String :=
  match config with
  | none => sbc_fallback is_xq
  | some cfg =>
      match sbc_bitrate_from_config cfg, cfg.effective_bitpool with
      | some br, some bp =>
          if br = 0 then sbc_fallback is_xq
          else format_bitrate br ++ " (bitpool " ++ toString bp ++ ")"
      | some _, none => sbc_fallback is_xq
      | none, _ => sbc_fallback is_xq

/-- From `gui.py` lines 246, 258, 260, 273, 285, 287: the GUI's SBC fallback
strings carry an `(est.)` suffix. -/
def gui_sbc_fallback (is_xq : Bool) : String :=
  if is_xq then ("~552 kbps (est.)") else ("~328 kbps (est.)")

/-- From `gui.py`, `BitrateMonitor.get_bluetooth_devices` lines 233-287: the
bitrate string shown for an SBC device, same guard structure as the monitor
(`if bitrate_value and bitpool is not None`), with suffixed fallbacks. -/
def gui_sbc_bitrate_field (is_xq : Bool) (config : Option SbcConfiguration) : String :=
  match config with
  | none => gui_sbc_fallback is_xq
  | some cfg =>
      match sbc_bitrate_from_config cfg, cfg.effective_bitpool with
      | some br, some bp =>
          if br = 0 then gui_sbc_fallback is_xq
          else format_bitrate br ++ " (bitpool " ++ toString bp ++ ")"
      | some _, none => gui_sbc_fallback is_xq
      | none, _ => gui_sbc_fallback is_xq

/-- The frame length of spec.md §4.2 step 2 written with genuine ceiling
divisions over the rationals, following the spec text rather than the
natural-number realisation, for comparison with `frame_length`.  The header
uses integer division exactly as the spec states. -/
def frame_length_spec (bitpool : Nat) (cm : ChannelMode) (block_length subbands : Nat) : ℤ :=
  4 + ((4 * subbands * channels cm / 8 : Nat) : ℤ) +
  (match cm with
   | ChannelMode.mono | ChannelMode.dual_channel =>
       ⌈((block_length : ℚ) * (channels cm : ℚ) * (bitpool : ℚ)) / 8⌉
   | ChannelMode.stereo => ⌈((block_length : ℚ) * (bitpool : ℚ)) / 8⌉
   | ChannelMode.joint_stereo =>
       ⌈((subbands : ℚ) + (block_length : ℚ) * (bitpool : ℚ)) / 8⌉)

/-- The bitrate of spec.md §4.2 steps 3-4 written following the spec text:
a real-valued frame rate `sample_rate / (block_length * subbands)` and a
final rounding to the nearest integer with ties away from zero (for a
positive argument this is the floor of the value plus one half). -/
def sbc_bitrate_spec (bitpool sample_rate : Nat) (cm : ChannelMode)
    (block_length subbands : Nat) : ℤ :=
  ⌊((frame_length_spec bitpool cm block_length subbands : ℤ) : ℚ) *
      ((sample_rate : ℚ) / ((block_length : ℚ) * (subbands : ℚ))) * 8 + 1 / 2⌋

/-- From `monitor.py` lines 109-162 (and identically `gui.py` lines 229-312):
the codec-string dispatch.  Either the SBC path is taken (with its XQ flag),
or a fixed label and bitrate pair is displayed, or the upper-cased raw
string is shown with no bitrate. -/
inductive CodecBranch
  | sbc (is_xq : Bool)
  | fixed (label : String) (bitrate : String)
  | unknown (label : String)
deriving DecidableEq

/-- Lower-casing of ASCII strings, embedding Python's `codec.lower()` for the
codec identifiers that occur here. -/
def lower_str (s : String) : String :=
  String.mk (s.data.map Char.toLower)

/-- Upper-casing of ASCII strings, embedding Python's `codec.upper()`. -/
def upper_str (s : String) : String :=
  String.mk (s.data.map Char.toUpper)

/-- Whether `pat` occurs at the head of the second character list. -/
def matches_here : List Char → List Char → Bool
  | [], _ => true
  | _ :: _, [] => false
  | p :: ps, c :: cs => p == c && matches_here ps cs

/-- Whether `pat` occurs as a contiguous substring, embedding Python's
substring membership test on strings. -/
def contains_sub (pat : List Char) : List Char → Bool
  | [] => pat.isEmpty
  | c :: rest => matches_here pat (c :: rest) || contains_sub pat rest

/-- Python's substring membership test on strings. -/
def str_contains (s pat : String) : Bool :=
  contains_sub pat.data s.data

/-- From `monitor.py` lines 109-162: classification of the
`api.bluez5.codec` value.  The test for the substring `sbc` comes first, so
any codec string containing `sbc` — including `msbc` — takes the SBC branch,
and the later `msbc` arm can never be reached. -/
def classify_codec (codec : String) : CodecBranch :=
  let cl := lower_str codec
  if str_contains cl ("sbc") then CodecBranch.sbc (str_contains cl ("xq"))
  else if str_contains cl ("aac") then CodecBranch.fixed ("AAC") ("~256 kbps")
  else if str_contains cl ("aptx_hd") then CodecBranch.fixed ("aptX HD") ("576 kbps")
  else if str_contains cl ("aptx") then CodecBranch.fixed ("aptX") ("352 kbps")
  else if str_contains cl ("ldac") then
    CodecBranch.fixed ("LDAC")
      (if str_contains cl ("hq") then ("~990 kbps")
       else if str_contains cl ("sq") then ("~660 kbps")
       else ("~330-990 kbps"))
  else if str_contains cl ("msbc") then CodecBranch.fixed ("mSBC") ("~64 kbps")
  else if str_contains cl ("cvsd") then CodecBranch.fixed ("CVSD") ("~64 kbps")
  else CodecBranch.unknown (upper_str codec)

/-- The argument record produced by the command-line parsing in
`monitor.py::main` (lines 253-262): `--interval` defaults to 2,
`--once` and `--watch` default to off. -/
structure MonitorArgs where
  interval : Int
  once : Bool
  watch : Bool
deriving DecidableEq

/-- Value of a decimal digit character. -/
def digit_val (c : Char) : Option Nat :=
  if c.isDigit then some (c.toNat - 48) else none

/-- Accumulating decimal reading of a digit string. -/
def digits_to_nat : List Char → Nat → Option Nat
  | [], acc => some acc
  | c :: cs, acc =>
      match digit_val c with
      | some d => digits_to_nat cs (acc * 10 + d)
      | none => none

/-- Decimal integer conversion as applied by the command-line parser to the
interval value (an optional leading minus sign followed by digits). -/
def parse_int (s : String) : Option Int :=
  match s.data with
  | [] => none
  | '-' :: rest =>
      match rest with
      | [] => none
      | _ => (digits_to_nat rest 0).map (fun n => -(n : Int))
  | ds => (digits_to_nat ds 0).map (fun n => (n : Int))

/-- The flag parsing of `monitor.py::main` lines 254-262.  This models the
standard-library argument parser restricted to the three declared options
(`-i` or `--interval` with an integer value, `-o` or `--once`, `-w` or
`--watch`); an unknown token or a missing or non-integer interval value is
a parse failure. -/
def parse_monitor_args : List String → MonitorArgs → Option MonitorArgs
  | [], acc => some acc
  | [a], acc =>
      if a = "-o" || a = "--once" then some { acc with once := true }
      else if a = "-w" || a = "--watch" then some { acc with watch := true }
      else none
  | a :: b :: rest, acc =>
      if a = "-o" || a = "--once" then
        parse_monitor_args (b :: rest) { acc with once := true }
      else if a = "-w" || a = "--watch" then
        parse_monitor_args (b :: rest) { acc with watch := true }
      else if a = "-i" || a = "--interval" then
        match parse_int b with
        | some n => parse_monitor_args rest { acc with interval := n }
        | none => none
      else none

/-- From `monitor.py::main` lines 253-281, the observable outcome:
exit code, whether the one-shot device report ran, and whether the
monitor loop was entered.  With `--once` the info is printed once and 0 is
returned before the interval is ever validated; otherwise an interval
below 1 yields exit code 2 without entering the loop. -/
def monitor_main (argv : List String) : Option (Int × Bool × Bool) :=
  match parse_monitor_args argv ⟨2, false, false⟩ with
  | none => none
  | some args =>
      if args.once then some (0, true, false)
      else if args.interval < 1 then some (2, false, false)
      else some (0, false, true)

/-- Bridge lemma: the natural-number ceiling division by 8 agrees with the
rational ceiling of the spec text. -/
theorem nat_ceil_div8 (n : ℕ) : (((n + 7) / 8 : ℕ) : ℤ) = ⌈(n : ℚ) / 8⌉ := by
  have h8 : (0 : ℚ) < 8 := by norm_num
  set k := (n + 7) / 8 with hk
  have h1 : 8 * k ≤ n + 7 := by omega
  have h2 : n ≤ 8 * k := by omega
  have h1q : 8 * (k : ℚ) ≤ (n : ℚ) + 7 := by exact_mod_cast h1
  have h2q : (n : ℚ) ≤ 8 * (k : ℚ) := by exact_mod_cast h2
  symm
  rw [Int.ceil_eq_iff]
  constructor
  · rw [lt_div_iff₀ h8]
    push_cast at h1q h2q ⊢
    linarith
  · rw [div_le_iff₀ h8]
    push_cast at h1q h2q ⊢
    linarith

/-- Bridge lemma: the natural-number computation `(2 * N + D) / (2 * D)`
agrees with rounding `N / D` to the nearest integer, ties away from zero. -/
theorem nat_round_half (N D : ℕ) (hD : 0 < D) :
    (((2 * N + D) / (2 * D) : ℕ) : ℤ) = ⌊(N : ℚ) / (D : ℚ) + 1 / 2⌋ := by
  have hDq : ((D : ℚ)) ≠ 0 := ne_of_gt (by exact_mod_cast hD)
  have ha : (N : ℚ) / (D : ℚ) + 1 / 2 = ((2 * N + D : ℕ) : ℚ) / ((2 * D : ℕ) : ℚ) := by
    push_cast
    field_simp
    ring
  rw [ha, Rat.floor_natCast_div_natCast]
  push_cast
  rfl

/-- Cast-normalised form of `nat_ceil_div8` for a three-factor numerator. -/
theorem nat_ceil_div8_mul3 (a b c : ℕ) :
    (((a * b * c + 7) / 8 : ℕ) : ℤ) = ⌈((a : ℚ) * (b : ℚ) * (c : ℚ)) / 8⌉ := by
  rw [show ((a : ℚ) * (b : ℚ) * (c : ℚ)) = ((a * b * c : ℕ) : ℚ) by push_cast; ring]
  exact nat_ceil_div8 (a * b * c)

/-- Cast-normalised form of `nat_ceil_div8` for a two-factor numerator. -/
theorem nat_ceil_div8_mul2 (a b : ℕ) :
    (((a * b + 7) / 8 : ℕ) : ℤ) = ⌈((a : ℚ) * (b : ℚ)) / 8⌉ := by
  rw [show ((a : ℚ) * (b : ℚ)) = ((a * b : ℕ) : ℚ) by push_cast; ring]
  exact nat_ceil_div8 (a * b)

/-- Cast-normalised form of `nat_ceil_div8` for a sum-plus-product
numerator. -/
theorem nat_ceil_div8_addmul (s a b : ℕ) :
    (((s + a * b + 7) / 8 : ℕ) : ℤ) = ⌈((s : ℚ) + (a : ℚ) * (b : ℚ)) / 8⌉ := by
  rw [show ((s : ℚ) + (a : ℚ) * (b : ℚ)) = ((s + a * b : ℕ) : ℚ) by push_cast; ring]
  exact nat_ceil_div8 (s + a * b)

/-- The spec-text frame length and the natural-number frame length agree on
every channel mode. -/
theorem frame_length_spec_eq (bp : ℕ) (cm : ChannelMode) (bl sb : ℕ) :
    frame_length_spec bp cm bl sb = ((frame_length bp cm bl sb : ℕ) : ℤ) := by
  cases cm
  case mono =>
    simp only [frame_length_spec, frame_length, channels]
    rw [← nat_ceil_div8_mul3]
    push_cast
    ring
  case dual_channel =>
    simp only [frame_length_spec, frame_length, channels]
    rw [← nat_ceil_div8_mul3]
    push_cast
    ring
  case stereo =>
    simp only [frame_length_spec, frame_length, channels]
    rw [← nat_ceil_div8_mul2]
    push_cast
    ring
  case joint_stereo =>
    simp only [frame_length_spec, frame_length, channels]
    rw [← nat_ceil_div8_addmul]
    push_cast
    ring

/-- The natural-number calculator computes exactly the spec-text formula:
frame length times the real-valued frame rate times 8, rounded to the
nearest integer with ties away from zero. -/
theorem sbc_bitrate_round_eq (bp sr : ℕ) (cm : ChannelMode) (bl sb : ℕ)
    (hbl : 0 < bl) (hsb : 0 < sb) :
    ((sbc_bitrate_bps bp sr cm bl sb : ℕ) : ℤ) = sbc_bitrate_spec bp sr cm bl sb := by
  have hd : 0 < bl * sb := Nat.mul_pos hbl hsb
  have hblq : ((bl : ℚ)) ≠ 0 := ne_of_gt (by exact_mod_cast hbl)
  have hsbq : ((sb : ℚ)) ≠ 0 := ne_of_gt (by exact_mod_cast hsb)
  unfold sbc_bitrate_spec sbc_bitrate_bps
  rw [frame_length_spec_eq]
  have harg : ((((frame_length bp cm bl sb : ℕ) : ℤ) : ℚ)) *
        ((sr : ℚ) / ((bl : ℚ) * (sb : ℚ))) * 8 + 1 / 2 =
      ((frame_length bp cm bl sb * sr * 8 : ℕ) : ℚ) / ((bl * sb : ℕ) : ℚ) + 1 / 2 := by
    push_cast
    field_simp
  rw [harg, ← nat_round_half (frame_length bp cm bl sb * sr * 8) (bl * sb) hd]

/-- The calculator output is strictly positive for any configuration whose
numeric fields lie in the spec ranges. -/
theorem sbc_bitrate_pos (bp sr : ℕ) (cm : ChannelMode) (bl sb : ℕ)
    (hbl : 0 < bl) (hbl16 : bl ≤ 16) (hsb : 0 < sb) (hsb8 : sb ≤ 8) (hsr : 16000 ≤ sr) :
    0 < sbc_bitrate_bps bp sr cm bl sb := by
  have hfl : 4 ≤ frame_length bp cm bl sb := by
    cases cm <;>
      exact le_trans (Nat.le_add_right 4 _) (Nat.le_add_right _ _)
  have hN : 4 * 16000 * 8 ≤ frame_length bp cm bl sb * sr * 8 :=
    Nat.mul_le_mul (Nat.mul_le_mul hfl hsr) (le_refl 8)
  have hdle : bl * sb ≤ 128 := le_trans (Nat.mul_le_mul hbl16 hsb8) (by norm_num)
  have hdpos : 0 < bl * sb := Nat.mul_pos hbl hsb
  simp only [sbc_bitrate_bps]
  have h1 : 1 ≤ (2 * (frame_length bp cm bl sb * sr * 8) + bl * sb) / (2 * (bl * sb)) := by
    rw [Nat.one_le_div_iff (by omega : 0 < 2 * (bl * sb))]
    set N := frame_length bp cm bl sb * sr * 8
    set d := bl * sb
    omega
  exact h1

/-- The numeric bounds that follow from structural validity of a
configuration. -/
theorem valid_sbc_bounds (c : SbcConfiguration) (hv : valid_sbc c = true) :
    16000 ≤ c.sample_rate ∧ 0 < c.block_length ∧ c.block_length ≤ 16 ∧
      0 < c.subbands ∧ c.subbands ≤ 8 := by
  simp only [valid_sbc, Bool.and_eq_true, Bool.or_eq_true, beq_iff_eq,
    decide_eq_true_eq] at hv
  obtain ⟨⟨⟨⟨hsr, hbl⟩, hsb⟩, -⟩, -⟩ := hv
  refine ⟨?_, ?_, ?_, ?_, ?_⟩
  · rcases hsr with ⟨⟨h | h⟩ | h⟩ | h <;> omega
  · rcases hbl with ⟨⟨h | h⟩ | h⟩ | h <;> omega
  · rcases hbl with ⟨⟨h | h⟩ | h⟩ | h <;> omega
  · rcases hsb with h | h <;> omega
  · rcases hsb with h | h <;> omega

/-- If parsing succeeds and the argument vector mentions the once flag (or
the accumulator already records it), the parsed record has `once` set. -/
theorem parse_once_mem : ∀ (argv : List String) (acc : MonitorArgs),
    ∀ args, parse_monitor_args argv acc = some args →
      ("--once" ∈ argv ∨ "-o" ∈ argv ∨ acc.once = true) → args.once = true := by
  intro argv acc
  induction argv, acc using parse_monitor_args.induct with
  | case1 acc =>
      intro args hp hm
      simp only [parse_monitor_args, Option.some.injEq] at hp
      subst hp
      simpa using hm
  | case2 a acc h =>
      intro args hp hm
      simp only [parse_monitor_args, h, if_pos, Option.some.injEq] at hp
      subst hp
      rfl
  | case3 a acc h1 h2 =>
      intro args hp hm
      simp only [parse_monitor_args, h1, h2, if_pos, if_neg, Bool.false_eq_true,
        not_false_eq_true, Option.some.injEq] at hp
      subst hp
      simp only [List.mem_cons, List.not_mem_nil, or_false] at hm
      rcases hm with h | h | h
      · subst h
        exact absurd (by decide) h1
      · subst h
        exact absurd (by decide) h1
      · exact h
  | case4 a acc h1 h2 =>
      intro args hp hm
      simp only [parse_monitor_args, h1, h2, if_neg, Bool.false_eq_true,
        not_false_eq_true] at hp
      exact Option.noConfusion hp
  | case5 a b rest acc h ih =>
      intro args hp hm
      simp only [parse_monitor_args, h, if_pos] at hp
      exact ih args hp (Or.inr (Or.inr rfl))
  | case6 a b rest acc h1 h2 ih =>
      intro args hp hm
      simp only [parse_monitor_args, h1, h2, if_pos, if_neg, Bool.false_eq_true,
        not_false_eq_true] at hp
      refine ih args hp ?_
      simp only [List.mem_cons] at hm
      rcases hm with (h | h) | (h | h) | h
      · subst h
        exact absurd (by decide) h1
      · exact Or.inl (List.mem_cons.mpr h)
      · subst h
        exact absurd (by decide) h1
      · exact Or.inr (Or.inl (List.mem_cons.mpr h))
      · exact Or.inr (Or.inr h)
  | case7 a b rest acc h1 h2 h3 n hb ih =>
      intro args hp hm
      simp only [parse_monitor_args, h1, h2, h3, hb, if_pos, if_neg, Bool.false_eq_true,
        not_false_eq_true] at hp
      refine ih args hp ?_
      simp only [List.mem_cons] at hm
      rcases hm with (h | h | h) | (h | h | h) | h
      · subst h
        exact absurd (by decide) h1
      · subst h
        have hnone : parse_int ("--once") = none := by decide
        rw [hnone] at hb
        exact Option.noConfusion hb
      · exact Or.inl h
      · subst h
        exact absurd (by decide) h1
      · subst h
        have hnone : parse_int ("-o") = none := by decide
        rw [hnone] at hb
        exact Option.noConfusion hb
      · exact Or.inr (Or.inl h)
      · exact Or.inr (Or.inr h)
  | case8 a b rest acc h1 h2 h3 hb =>
      intro args hp hm
      simp only [parse_monitor_args, h1, h2, h3, hb, if_pos, if_neg, Bool.false_eq_true,
        not_false_eq_true] at hp
      exact Option.noConfusion hp
  | case9 a b rest acc h1 h2 h3 =>
      intro args hp hm
      simp only [parse_monitor_args, h1, h2, h3, if_neg, Bool.false_eq_true,
        not_false_eq_true] at hp
      exact Option.noConfusion hp

/-- C1: for every `SbcConfiguration` with a present effective bitpool, the
SBC bitrate calculator returns the spec formula exactly: frame length
(integer-division header plus ceiling-division payload per channel mode)
times the real-valued frame rate `sample_rate / (block_length * subbands)`
times 8, rounded to the nearest integer with ties away from zero. -/
theorem sbc_calculator_rounding_formula (c : SbcConfiguration) (bp : ℕ)
    (hbp : c.effective_bitpool = some bp)
    (hbl : 0 < c.block_length) (hsb : 0 < c.subbands) :
    (sbc_bitrate_from_config c).map (fun n => (n : ℤ)) =
      some (sbc_bitrate_spec bp c.sample_rate c.channel_mode c.block_length c.subbands) := by
  simp only [sbc_bitrate_from_config, hbp, calculate_sbc_bitrate, Option.map_some']
  exact congrArg some
    (sbc_bitrate_round_eq bp c.sample_rate c.channel_mode c.block_length c.subbands hbl hsb)

/-- C1 witness: the rounding formula evaluated at the SBC-XQ default
configuration (44.1 kHz dual channel, 16 blocks, 8 subbands, bitpool 47). -/
theorem sbc_calculator_rounding_formula_witness :
    (sbc_bitrate_from_config
        (SbcConfiguration.mk 44100 ChannelMode.dual_channel 16 8 2 250 (some 47))).map
        (fun n => (n : ℤ)) =
      some (sbc_bitrate_spec 47 44100 ChannelMode.dual_channel 16 8) :=
  sbc_calculator_rounding_formula
    (SbcConfiguration.mk 44100 ChannelMode.dual_channel 16 8 2 250 (some 47)) 47 rfl
    (by decide) (by decide)

/-- C2 counterexample: at bitpool 47, 44.1 kHz, 16 blocks, 8 subbands, the
stereo bitrate (292163 bps) is not higher than the dual-channel bitrate
(551250 bps), contradicting the claim that stereo and joint stereo are
strictly above mono and dual channel. -/
theorem channel_mode_ordering_counterexample :
    sbc_bitrate_bps 47 44100 ChannelMode.stereo 16 8 = 292163 ∧
    sbc_bitrate_bps 47 44100 ChannelMode.dual_channel 16 8 = 551250 ∧
    ¬ (sbc_bitrate_bps 47 44100 ChannelMode.dual_channel 16 8 <
        sbc_bitrate_bps 47 44100 ChannelMode.stereo 16 8) := by
  decide

/-- C2 amended: for identical sample rate, block length, subbands and
bitpool drawn from the spec enumerations, stereo and joint stereo yield a
strictly higher bitrate than mono (dual channel, whose payload doubles, in
fact exceeds both stereo modes, so the original ordering fails for it). -/
theorem channel_mode_ordering_amended (bp sr bl sb : ℕ)
    (hsr : sr ∈ ([16000, 32000, 44100, 48000] : List ℕ))
    (hbl : bl ∈ ([4, 8, 12, 16] : List ℕ))
    (hsb : sb ∈ ([4, 8] : List ℕ)) :
    sbc_bitrate_bps bp sr ChannelMode.mono bl sb <
      sbc_bitrate_bps bp sr ChannelMode.stereo bl sb ∧
    sbc_bitrate_bps bp sr ChannelMode.mono bl sb <
      sbc_bitrate_bps bp sr ChannelMode.joint_stereo bl sb := by
  fin_cases hsr <;> fin_cases hbl <;> fin_cases hsb <;>
    simp only [sbc_bitrate_bps, frame_length, channels] <;> exact ⟨by omega, by omega⟩

/-- C2 amended witness: the strict ordering evaluated at bitpool 47,
44.1 kHz, 16 blocks, 8 subbands. -/
theorem channel_mode_ordering_amended_witness :
    sbc_bitrate_bps 47 44100 ChannelMode.mono 16 8 <
      sbc_bitrate_bps 47 44100 ChannelMode.stereo 16 8 ∧
    sbc_bitrate_bps 47 44100 ChannelMode.mono 16 8 <
      sbc_bitrate_bps 47 44100 ChannelMode.joint_stereo 16 8 :=
  channel_mode_ordering_amended 47 44100 16 8 (by decide) (by decide) (by decide)

/-- C3: at 44.1 kHz dual channel, 16 blocks, 8 subbands, the calculator
returns 551250 bps at bitpool 47, 385875 bps at bitpool 32 and 738675 bps
at bitpool 64, each within 1000 bps of the GUI slider mark values 551000,
386000 and 738000. -/
theorem slider_mark_bitrates :
    calculate_sbc_bitrate 47 44100 ChannelMode.dual_channel 16 8 = some 551250 ∧
    ((551250 : ℤ) - 551000).natAbs ≤ 1000 ∧
    calculate_sbc_bitrate 32 44100 ChannelMode.dual_channel 16 8 = some 385875 ∧
    ((385875 : ℤ) - 386000).natAbs ≤ 1000 ∧
    calculate_sbc_bitrate 64 44100 ChannelMode.dual_channel 16 8 = some 738675 ∧
    ((738675 : ℤ) - 738000).natAbs ≤ 1000 := by
  decide

/-- C4: the config-level calculator returns a value exactly when the
effective bitpool is present: for a structurally valid configuration the
result is `some` when the bitpool is resolved and `none` when it is
absent. -/
theorem calculator_none_iff_bitpool_absent (c : SbcConfiguration)
    (_hv : valid_sbc c = true) :
    (sbc_bitrate_from_config c).isSome ↔ c.effective_bitpool.isSome := by
  cases h : c.effective_bitpool <;>
    simp [sbc_bitrate_from_config, calculate_sbc_bitrate, h]

/-- C4 witness: the equivalence evaluated at a valid configuration with
bitpool 47 present. -/
theorem calculator_none_iff_bitpool_absent_witness :
    (sbc_bitrate_from_config
        (SbcConfiguration.mk 44100 ChannelMode.dual_channel 16 8 2 250 (some 47))).isSome ↔
      (SbcConfiguration.mk 44100 ChannelMode.dual_channel 16 8 2 250
        (some 47)).effective_bitpool.isSome :=
  calculator_none_iff_bitpool_absent
    (SbcConfiguration.mk 44100 ChannelMode.dual_channel 16 8 2 250 (some 47)) (by decide)

/-- C5: for fixed sample rate, channel mode, block length and subbands, the
calculator is monotone in the bitpool. -/
theorem bitrate_monotone_in_bitpool (sr : ℕ) (cm : ChannelMode) (bl sb bp1 bp2 : ℕ)
    (h : bp1 ≤ bp2) :
    sbc_bitrate_bps bp1 sr cm bl sb ≤ sbc_bitrate_bps bp2 sr cm bl sb := by
  have hfl : frame_length bp1 cm bl sb ≤ frame_length bp2 cm bl sb := by
    cases cm <;> simp only [frame_length, channels] <;> gcongr
  simp only [sbc_bitrate_bps]
  gcongr

/-- C5 witness: monotonicity evaluated between bitpools 32 and 47 at the
dual-channel 44.1 kHz configuration. -/
theorem bitrate_monotone_in_bitpool_witness :
    sbc_bitrate_bps 32 44100 ChannelMode.dual_channel 16 8 ≤
      sbc_bitrate_bps 47 44100 ChannelMode.dual_channel 16 8 :=
  bitrate_monotone_in_bitpool 44100 ChannelMode.dual_channel 16 8 32 47 (by decide)

/-- C6 counterexample: the fallback constants do not equal the calculator's
output at the documented default bitpools: at 44.1 kHz dual channel the
calculator gives 385875 bps (386 kbps, not 328 kbps) at bitpool 32 and
551250 bps (551 kbps, not 552 kbps) at bitpool 47. -/
theorem sbc_fallback_constants_counterexample :
    sbc_bitrate_bps 32 44100 ChannelMode.dual_channel 16 8 = 385875 ∧
    (385875 : ℕ) ≠ 328000 ∧
    format_bitrate 385875 = "386 kbps" ∧
    sbc_bitrate_bps 47 44100 ChannelMode.dual_channel 16 8 = 551250 ∧
    format_bitrate 551250 = "551 kbps" ∧
    ("551 kbps" : String) ≠ "552 kbps" := by
  decide

/-- C6 amended: when the effective bitpool is unresolved (configuration
absent or bitpool absent) the displayed bitrate falls back to the static
estimates, roughly 328 kbps for standard SBC and roughly 552 kbps for
SBC-XQ; these constants however differ from the calculator's output at the
conventional default bitpools 32 and 47 (44.1 kHz dual channel), which is
385875 bps and 551250 bps respectively. -/
theorem sbc_fallback_display_amended (cfg : SbcConfiguration)
    (h : cfg.effective_bitpool = none) :
    pactl_sbc_bitrate_field true (some cfg) = "~552 kbps" ∧
    pactl_sbc_bitrate_field false (some cfg) = "~328 kbps" ∧
    pactl_sbc_bitrate_field true none = "~552 kbps" ∧
    pactl_sbc_bitrate_field false none = "~328 kbps" ∧
    gui_sbc_bitrate_field true (some cfg) = "~552 kbps (est.)" ∧
    gui_sbc_bitrate_field false (some cfg) = "~328 kbps (est.)" ∧
    sbc_bitrate_bps 32 44100 ChannelMode.dual_channel 16 8 = 385875 ∧
    sbc_bitrate_bps 47 44100 ChannelMode.dual_channel 16 8 = 551250 := by
  have hc : sbc_bitrate_from_config cfg = none := by
    simp [sbc_bitrate_from_config, h]
  refine ⟨?_, ?_, by decide, by decide, ?_, ?_, by decide, by decide⟩ <;>
    simp [pactl_sbc_bitrate_field, gui_sbc_bitrate_field, hc, h,
      sbc_fallback, gui_sbc_fallback]

/-- C6 amended witness: the fallback strings evaluated at a configuration
whose effective bitpool is absent. -/
theorem sbc_fallback_display_amended_witness :
    pactl_sbc_bitrate_field true
        (some (SbcConfiguration.mk 44100 ChannelMode.dual_channel 16 8 2 250 none)) =
      "~552 kbps" ∧
    pactl_sbc_bitrate_field false
        (some (SbcConfiguration.mk 44100 ChannelMode.dual_channel 16 8 2 250 none)) =
      "~328 kbps" ∧
    pactl_sbc_bitrate_field true none = "~552 kbps" ∧
    pactl_sbc_bitrate_field false none = "~328 kbps" ∧
    gui_sbc_bitrate_field true
        (some (SbcConfiguration.mk 44100 ChannelMode.dual_channel 16 8 2 250 none)) =
      "~552 kbps (est.)" ∧
    gui_sbc_bitrate_field false
        (some (SbcConfiguration.mk 44100 ChannelMode.dual_channel 16 8 2 250 none)) =
      "~328 kbps (est.)" ∧
    sbc_bitrate_bps 32 44100 ChannelMode.dual_channel 16 8 = 385875 ∧
    sbc_bitrate_bps 47 44100 ChannelMode.dual_channel 16 8 = 551250 :=
  sbc_fallback_display_amended
    (SbcConfiguration.mk 44100 ChannelMode.dual_channel 16 8 2 250 none) rfl

/-- C7: evaluation of the codec dispatch.  A codec string containing `msbc`
is captured by the earlier SBC test (so the dedicated mSBC arm with the
64 kbps constant is unreachable), while the other non-SBC codecs receive
their fixed table constants. -/
theorem msbc_classified_as_sbc :
    classify_codec ("msbc") = CodecBranch.sbc false ∧
    classify_codec ("mSBC") = CodecBranch.sbc false ∧
    classify_codec ("aac") = CodecBranch.fixed ("AAC") ("~256 kbps") ∧
    classify_codec ("aptx") = CodecBranch.fixed ("aptX") ("352 kbps") ∧
    classify_codec ("aptx_hd") = CodecBranch.fixed ("aptX HD") ("576 kbps") ∧
    classify_codec ("ldac_hq") = CodecBranch.fixed ("LDAC") ("~990 kbps") ∧
    classify_codec ("ldac_sq") = CodecBranch.fixed ("LDAC") ("~660 kbps") ∧
    classify_codec ("ldac") = CodecBranch.fixed ("LDAC") ("~330-990 kbps") ∧
    classify_codec ("cvsd") = CodecBranch.fixed ("CVSD") ("~64 kbps") ∧
    classify_codec ("sbc_xq") = CodecBranch.sbc true := by
  decide

/-- C8: whenever the calculator yields a bitrate for a structurally valid
configuration with a known bitpool, both the monitor and the GUI display
the scaled bitrate followed by the bitpool, in the form
formatted-bitrate space open-parenthesis bitpool value
close-parenthesis. -/
theorem bitrate_string_format (c : SbcConfiguration) (bp br : ℕ) (is_xq : Bool)
    (hv : valid_sbc c = true) (hbp : c.effective_bitpool = some bp)
    (hbr : sbc_bitrate_from_config c = some br) :
    pactl_sbc_bitrate_field is_xq (some c) =
      format_bitrate br ++ " (bitpool " ++ toString bp ++ ")" ∧
    gui_sbc_bitrate_field is_xq (some c) =
      format_bitrate br ++ " (bitpool " ++ toString bp ++ ")" := by
  obtain ⟨hsr, hblpos, hbl16, hsbpos, hsb8⟩ := valid_sbc_bounds c hv
  have hbr_val : br = sbc_bitrate_bps bp c.sample_rate c.channel_mode c.block_length c.subbands := by
    simp only [sbc_bitrate_from_config, hbp, calculate_sbc_bitrate, Option.some.injEq] at hbr
    exact hbr.symm
  have hpos : 0 < br := by
    rw [hbr_val]
    exact sbc_bitrate_pos bp c.sample_rate c.channel_mode c.block_length c.subbands
      hblpos hbl16 hsbpos hsb8 hsr
  have hne : ¬ br = 0 := Nat.pos_iff_ne_zero.mp hpos
  constructor <;>
    simp [pactl_sbc_bitrate_field, gui_sbc_bitrate_field, hbr, hbp, hne]

/-- C8 witness: the display string evaluated at the valid SBC-XQ default
configuration, whose computed bitrate is 551250 bps. -/
theorem bitrate_string_format_witness :
    pactl_sbc_bitrate_field true
        (some (SbcConfiguration.mk 44100 ChannelMode.dual_channel 16 8 2 250 (some 47))) =
      format_bitrate 551250 ++ " (bitpool " ++ toString 47 ++ ")" ∧
    gui_sbc_bitrate_field true
        (some (SbcConfiguration.mk 44100 ChannelMode.dual_channel 16 8 2 250 (some 47))) =
      format_bitrate 551250 ++ " (bitpool " ++ toString 47 ++ ")" :=
  bitrate_string_format
    (SbcConfiguration.mk 44100 ChannelMode.dual_channel 16 8 2 250 (some 47)) 47 551250 true
    (by decide) rfl (by decide)

/-- C9: the GUI wrapper always produces a number: for every bitpool and
sample rate, either the underlying calculator returned none and the
wrapper yields 0, or the calculator returned a value and the wrapper
passes it through unchanged. -/
theorem window_wrapper_returns_zero_for_none (bitpool sample_rate : ℕ) :
    (window_calculate_sbc_bitrate bitpool sample_rate = 0 ∧
      calculate_sbc_bitrate bitpool sample_rate ChannelMode.dual_channel 16 8 = none) ∨
    (∃ b, calculate_sbc_bitrate bitpool sample_rate ChannelMode.dual_channel 16 8 = some b ∧
      window_calculate_sbc_bitrate bitpool sample_rate = b) :=
  Or.inr ⟨sbc_bitrate_bps bitpool sample_rate ChannelMode.dual_channel 16 8, rfl, rfl⟩

/-- C10: when the argument vector parses, the presence of the once flag
makes the program print the device report once and return 0 without
validating the interval, while without the once flag an interval below 1
yields exit code 2 and the monitor loop is never entered. -/
theorem monitor_once_skips_interval_validation (argv : List String) (args : MonitorArgs)
    (hp : parse_monitor_args argv ⟨2, false, false⟩ = some args) :
    (("--once" ∈ argv ∨ "-o" ∈ argv) → monitor_main argv = some (0, true, false)) ∧
    (args.once = false → args.interval < 1 → monitor_main argv = some (2, false, false)) := by
  constructor
  · intro hm
    have ho : args.once = true :=
      parse_once_mem argv ⟨2, false, false⟩ args hp (by tauto)
    simp [monitor_main, hp, ho]
  · intro h1 h2
    simp [monitor_main, hp, h1, h2]

/-- C10 witness: with the once flag and a zero interval the program prints
once and exits 0; with only a zero interval it exits 2 without running. -/
theorem monitor_once_skips_interval_validation_witness :
    monitor_main ["--once", "-i", "0"] = some (0, true, false) ∧
    monitor_main ["-i", "0"] = some (2, false, false) := by
  constructor
  · exact (monitor_once_skips_interval_validation ["--once", "-i", "0"]
      ⟨0, true, false⟩ (by decide)).1 (Or.inl (by decide))
  · exact (monitor_once_skips_interval_validation ["-i", "0"]
      ⟨0, false, false⟩ (by decide)).2 rfl (by decide)
